import Mathlib

/-!
Verification of the `node-usbmuxd` client library (`src/usbmuxd.ts` plus its
protocol and type-guard modules) against its natural-language specification.

The development shallowly embeds the protocol engine: the device-record
decoder, the wire-frame builder, the plist request builder, the event
subscription registry, and the `usbmuxd_get_device_list` control flow with its
protocol-version fallback.  Stateful code is modelled by explicit state
passing; the daemon's responses (whose transport primitives are stubbed in the
source) are supplied as an explicit oracle list of responses.
-/

namespace NodeUsbmuxd

/-- Modelled from the spec: the `usbmuxd_errno` module is not under `src/`;
the spec only says errors are drawn from "a POSIX-style errno-like taxonomy",
so the three constants used by the source are modelled as the standard
positive POSIX errno values (the source always returns their negations). -/
def EPERM : Int := 1

/-- Modelled from the spec: POSIX `ENOENT`, returned negated when the daemon
socket is unreachable. -/
def ENOENT : Int := 2

/-- Modelled from the spec: POSIX `EINVAL`, returned negated for an unknown
subscription context. -/
def EINVAL : Int := 22

/-- Source enum `usbmux_connection_type`. -/
inductive usbmux_connection_type where
  | CONNECTION_TYPE_USB
  | CONNECTION_TYPE_NETWORK
deriving DecidableEq, Repr

/-- Source structure `usbmuxd_device_info_t`: handle, product id, udid,
connection kind and connection-kind-specific auxiliary bytes
(`conn_data`, a `Uint8Array` modelled as a list of byte values). -/
structure usbmuxd_device_info_t where
  handle : Int
  product_id : Int
  udid : String
  conn_type : usbmux_connection_type
  conn_data : List Nat
deriving DecidableEq, Repr

/-- Source enum `usbmuxd_event_type`. -/
inductive usbmuxd_event_type where
  | UE_DEVICE_ADD
  | UE_DEVICE_REMOVE
  | UE_DEVICE_PAIRED
deriving DecidableEq, Repr

/-- Result code `RESULT_OK` from `usbmuxd_proto`. -/
def RESULT_OK : Int := 0
/-- Result code `RESULT_BADCOMMAND` from `usbmuxd_proto`. -/
def RESULT_BADCOMMAND : Int := 1
/-- Result code `RESULT_BADDEV` from `usbmuxd_proto`. -/
def RESULT_BADDEV : Int := 2
/-- Result code `RESULT_CONNREFUSED` from `usbmuxd_proto`. -/
def RESULT_CONNREFUSED : Int := 3
/-- Result code `RESULT_BADVERSION` from `usbmuxd_proto`. -/
def RESULT_BADVERSION : Int := 6

/-- Message type `MESSAGE_RESULT` from the `usbmuxd_msgtype` enum of `usbmuxd_proto`. -/
def MESSAGE_RESULT : Nat := 1
/-- Message type `MESSAGE_CONNECT` from `usbmuxd_proto`. -/
def MESSAGE_CONNECT : Nat := 2
/-- Message type `MESSAGE_LISTEN` from `usbmuxd_proto`. -/
def MESSAGE_LISTEN : Nat := 3
/-- Message type `MESSAGE_DEVICE_ADD` from `usbmuxd_proto`. -/
def MESSAGE_DEVICE_ADD : Nat := 4
/-- Message type `MESSAGE_DEVICE_REMOVE` from `usbmuxd_proto`. -/
def MESSAGE_DEVICE_REMOVE : Nat := 5
/-- Message type `MESSAGE_DEVICE_PAIRED` from `usbmuxd_proto`. -/
def MESSAGE_DEVICE_PAIRED : Nat := 6
/-- Message type `MESSAGE_PLIST` from `usbmuxd_proto`. -/
def MESSAGE_PLIST : Nat := 8

/-- A structured (plist) scalar value as it reaches `device_info_from_plist`
through the opaque plist codec: a JS number, a string, a `Uint8Array` byte
blob, or anything else / an absent key (`other`). -/
inductive PValue where
  | num (n : Int)
  | str (s : String)
  | bytes (b : List Nat)
  | other
deriving DecidableEq, Repr

/-- Guard `isNumber` from the `type_guard` module, restricted to plist scalars
(`NaN` is not representable in the model). -/
def isNumber : PValue → Bool
  | .num _ => true
  | _ => false

/-- Guard `isString` from the `type_guard` module. -/
def isString : PValue → Bool
  | .str _ => true
  | _ => false

/-- Check `x instanceof Uint8Array` on a plist scalar. -/
def isUint8Array : PValue → Bool
  | .bytes _ => true
  | _ => false

/-- The `as number` cast used after a successful `isNumber` check. -/
def asNumber : PValue → Int
  | .num n => n
  | _ => 0

/-- The `as string` cast used after a successful `isString` check. -/
def asString : PValue → String
  | .str s => s
  | _ => ""

/-- The `as Uint8Array` cast used after a successful `instanceof` check. -/
def asBytes : PValue → List Nat
  | .bytes b => b
  | _ => []

/-- The five properties `device_info_from_plist` destructures from a device
record of a `ListDevices` response. -/
structure DeviceProps where
  DeviceID : PValue
  ProductID : PValue
  SerialNumber : PValue
  ConnectionType : PValue
  NetworkAddress : PValue
deriving DecidableEq, Repr

/-- Source function `device_info_from_plist`: validates the five destructured
properties (accumulating a `success` flag exactly as the sequence of `if`
statements does) and on success builds the device record. -/
def device_info_from_plist (props : DeviceProps) : Option usbmuxd_device_info_t :=
  let success := true
  let success := if !isNumber props.DeviceID then false else success
  let success := if !isNumber props.ProductID then false else success
  let success := if !isString props.SerialNumber then false else success
  let success :=
    if props.ConnectionType ≠ PValue.str "USB" ∧ props.ConnectionType ≠ PValue.str "Network" then
      false
    else success
  let success :=
    if props.ConnectionType = PValue.str "Network" ∧ !isUint8Array props.NetworkAddress then
      false
    else success
  if !success then
    none
  else
    some {
      handle := asNumber props.DeviceID
      product_id := asNumber props.ProductID
      udid := asString props.SerialNumber
      conn_type :=
        if props.ConnectionType = PValue.str "Network" then
          usbmux_connection_type.CONNECTION_TYPE_NETWORK
        else
          usbmux_connection_type.CONNECTION_TYPE_USB
      conn_data :=
        if props.ConnectionType = PValue.str "Network" then
          asBytes props.NetworkAddress
        else
          [] }

/-- The spec's acceptance condition for a structured device record, written
from the spec's words (identifier, product id and serial present and
well-typed; connection type USB or Network; network records carry address
bytes).  Compared against the source decoder in the C6 theorem. -/
def spec_record_accepted (props : DeviceProps) : Prop :=
  isNumber props.DeviceID = true ∧
  isNumber props.ProductID = true ∧
  isString props.SerialNumber = true ∧
  (props.ConnectionType = PValue.str "USB" ∨ props.ConnectionType = PValue.str "Network") ∧
  (props.ConnectionType = PValue.str "Network" → isUint8Array props.NetworkAddress = true)

instance (props : DeviceProps) : Decidable (spec_record_accepted props) := by
  unfold spec_record_accepted; infer_instance

/-- Operation `DataView.setUint32` with the default (big-endian) byte order,
as used on the header buffer in `socket_send_data`: truncates the value to 32
bits and overwrites the four bytes at `off`. -/
def setUint32 (buf : List Nat) (off v : Nat) : List Nat :=
  let v := v % 2 ^ 32
  ((((buf.set off (v / 2 ^ 24 % 256)).set (off + 1) (v / 2 ^ 16 % 256)).set
      (off + 2) (v / 2 ^ 8 % 256)).set (off + 3) (v % 256))

/-- Big-endian 4-byte encoding of a 32-bit value, the spec-side description of
one unsigned 32-bit header field in the fixed wire byte order. -/
def u32be (v : Nat) : List Nat :=
  let v := v % 2 ^ 32
  [v / 2 ^ 24 % 256, v / 2 ^ 16 % 256, v / 2 ^ 8 % 256, v % 256]

/-- Source function `socket_send_data`, viewed as the frame it puts on the
wire: a 16-byte header buffer written field by field with `setUint32`
(length, version = the current `_proto_version`, message type, tag), followed
by the payload bytes.  The header write and the payload write are the two
sequential `socket_send_raw_data` calls of the source. -/
def socket_send_data_frame (proto_version message tag : Nat) (data : List Nat) : List Nat :=
  let header_byte_length := 4 * 4
  let data_byte_length := data.length
  let header_data := List.replicate header_byte_length 0
  let header_data := setUint32 header_data 0 (header_byte_length + data_byte_length)
  let header_data := setUint32 header_data 4 proto_version
  let header_data := setUint32 header_data 8 message
  let header_data := setUint32 header_data 12 tag
  header_data ++ data

/-- Source constant `PACKAGE`. -/
def PACKAGE : String := "libusbmuxd"

/-- Source constant `PLIST_LIBUSBMUX_VERSION`. -/
def PLIST_LIBUSBMUX_VERSION : Nat := 3

/-- Source function `create_plist_message`: the XML property-list literal it
builds and re-parses is represented by its parsed key/value mapping (the
plist codec itself is an external collaborator per the spec). -/
def create_plist_message (message_type : String) : List (String × String) :=
  [("ClientVersionString", PACKAGE),
   ("MessageType", message_type),
   ("kLibUSBMuxVersion", toString PLIST_LIBUSBMUX_VERSION)]

/-- A structured request as handed to the transport: the message type and tag
that go into the header, and the structured payload document. -/
structure PlistRequest where
  message : Nat
  tag : Nat
  payload : List (String × String)
deriving DecidableEq, Repr

/-- Source function `socket_send_plist`, viewed as a request builder: it
serializes the mapping through the external codec and hands the bytes to
`socket_send_data` with message type `MESSAGE_PLIST`. -/
def socket_send_plist_request (tag : Nat) (plist_object : List (String × String)) : PlistRequest :=
  { message := MESSAGE_PLIST, tag := tag, payload := plist_object }

/-- Source function `socket_list_devices`, viewed as the request it sends. -/
def socket_list_devices_request (tag : Nat) : PlistRequest :=
  socket_send_plist_request tag (create_plist_message "ListDevices")

/-- Source function `socket_listen` in its negotiated-version
(`_proto_version == 1`) branch, viewed as the request it sends. -/
def socket_listen_request_negotiated (tag : Nat) : PlistRequest :=
  socket_send_plist_request tag (create_plist_message "Listen")

/-- Source type `usbmuxd_subscription_context`: the `(callback, user_data)`
pair; the callback function and the user-data buffer are opaque, so each is
modelled by an identity number. -/
structure usbmuxd_subscription_context where
  callback : Nat
  user_data : Nat
deriving DecidableEq, Repr

/-- An event as delivered to one subscriber's callback. -/
abbrev DeliveredEvent := usbmuxd_event_type × usbmuxd_device_info_t

/-- The process-wide state read and written by the event-subscription
operations: `_watching`, `_devices`, and `_listener_map` (a JS `Map` keyed by
the identity of the `{}` context handle; object identities are modelled by
naturals drawn from `next_handle`, and `Map` iteration order is insertion
order, hence the association list). -/
structure EventState where
  watching : Bool
  devices : List usbmuxd_device_info_t
  listener_map : List (Nat × usbmuxd_subscription_context)
  next_handle : Nat
deriving DecidableEq, Repr

/-- Operation `_listener_map.get` on the modelled map. -/
def listener_map_get (h : Nat) : List (Nat × usbmuxd_subscription_context) → Option usbmuxd_subscription_context
  | [] => none
  | (k, c) :: rest => if k = h then some c else listener_map_get h rest

/-- Operation `_listener_map.delete` on the modelled map. -/
def listener_map_delete (h : Nat) : List (Nat × usbmuxd_subscription_context) → List (Nat × usbmuxd_subscription_context)
  | [] => []
  | (k, c) :: rest => if k = h then rest else (k, c) :: listener_map_delete h rest

/-- Source function `usbmuxd_events_subscribe`: registers the pair under a
fresh context handle, and — only when `_watching` — synchronously delivers one
`UE_DEVICE_ADD` event per currently-known device to the new callback.  The
result keeps the source's union return type
`usbmuxd_subscription_context_t | number` as a sum, together with the list of
events delivered to the new callback and the updated state. -/
def usbmuxd_events_subscribe (callback user_data : Nat) (st : EventState) :
    (Nat ⊕ Int) × List DeliveredEvent × EventState :=
  let context : usbmuxd_subscription_context := { callback := callback, user_data := user_data }
  let context_handle := st.next_handle
  let st1 : EventState := { st with
    listener_map := st.listener_map ++ [(context_handle, context)]
    next_handle := st.next_handle + 1 }
  if !st.watching then
    (Sum.inl context_handle, [], st1)
  else
    (Sum.inl context_handle,
     st.devices.map (fun d => (usbmuxd_event_type.UE_DEVICE_ADD, d)), st1)

/-- Source function `usbmuxd_events_unsubscribe`: an unknown context handle
returns `-EINVAL` with no side effects; a registered one is first sent one
`UE_DEVICE_REMOVE` event per currently-known device and then erased from the
map, returning `0`. -/
def usbmuxd_events_unsubscribe (context : Nat) (st : EventState) :
    Int × List DeliveredEvent × EventState :=
  match listener_map_get context st.listener_map with
  | none => (-EINVAL, [], st)
  | some _ =>
    (0, st.devices.map (fun d => (usbmuxd_event_type.UE_DEVICE_REMOVE, d)),
     { st with listener_map := listener_map_delete context st.listener_map })

/-- An interleaving step against the registry: a subscribe or unsubscribe
call, or an update of the directory / listen-session flag performed between
calls (arbitrary listen-session activity). -/
inductive EventOp where
  | subscribe (callback user_data : Nat)
  | unsubscribe (context : Nat)
  | set_devices (devices : List usbmuxd_device_info_t)
  | set_watching (watching : Bool)
deriving DecidableEq, Repr

/-- Runs a sequence of registry steps, returning the final state and the
context handles returned by the subscribe calls, in call order. -/
def run_event_ops : List EventOp → EventState → EventState × List Nat
  | [], st => (st, [])
  | EventOp.subscribe cb ud :: rest, st =>
    let r := usbmuxd_events_subscribe cb ud st
    let out := run_event_ops rest r.2.2
    (out.1, (match r.1 with | Sum.inl h => [h] | Sum.inr _ => []) ++ out.2)
  | EventOp.unsubscribe c :: rest, st =>
    run_event_ops rest (usbmuxd_events_unsubscribe c st).2.2
  | EventOp.set_devices ds :: rest, st => run_event_ops rest { st with devices := ds }
  | EventOp.set_watching b :: rest, st => run_event_ops rest { st with watching := b }

theorem usbmuxd_events_subscribe_fst (cb ud : Nat) (st : EventState) :
    (usbmuxd_events_subscribe cb ud st).1 = Sum.inl st.next_handle := by
  unfold usbmuxd_events_subscribe
  split <;> rfl

theorem usbmuxd_events_subscribe_next_handle (cb ud : Nat) (st : EventState) :
    (usbmuxd_events_subscribe cb ud st).2.2.next_handle = st.next_handle + 1 := by
  unfold usbmuxd_events_subscribe
  split <;> rfl

theorem usbmuxd_events_unsubscribe_next_handle (c : Nat) (st : EventState) :
    (usbmuxd_events_unsubscribe c st).2.2.next_handle = st.next_handle := by
  unfold usbmuxd_events_unsubscribe
  cases listener_map_get c st.listener_map <;> rfl

theorem run_event_ops_handle_lb (ops : List EventOp) :
    ∀ st : EventState, ∀ h ∈ (run_event_ops ops st).2, st.next_handle ≤ h := by
  induction ops with
  | nil => intro st h hh; simp [run_event_ops] at hh
  | cons op rest ih =>
    intro st h hh
    cases op with
    | subscribe cb ud =>
      rw [run_event_ops] at hh
      simp only [usbmuxd_events_subscribe_fst, List.cons_append, List.nil_append,
        List.mem_cons] at hh
      rcases hh with rfl | hh
      · exact Nat.le_refl _
      · have hle := ih _ h hh
        rw [usbmuxd_events_subscribe_next_handle] at hle
        omega
    | unsubscribe c =>
      rw [run_event_ops] at hh
      have hle := ih _ h hh
      rw [usbmuxd_events_unsubscribe_next_handle] at hle
      exact hle
    | set_devices ds =>
      rw [run_event_ops] at hh
      exact ih { st with devices := ds } h hh
    | set_watching b =>
      rw [run_event_ops] at hh
      exact ih { st with watching := b } h hh

theorem run_event_ops_handles_sorted (ops : List EventOp) :
    ∀ st : EventState, ((run_event_ops ops st).2).Pairwise (· < ·) := by
  induction ops with
  | nil => intro st; simp [run_event_ops]
  | cons op rest ih =>
    intro st
    cases op with
    | subscribe cb ud =>
      rw [run_event_ops]
      simp only [usbmuxd_events_subscribe_fst, List.cons_append, List.nil_append]
      refine List.Pairwise.cons ?_ (ih _)
      intro b hb
      have hle := run_event_ops_handle_lb rest _ b hb
      rw [usbmuxd_events_subscribe_next_handle] at hle
      omega
    | unsubscribe c => rw [run_event_ops]; exact ih _
    | set_devices ds => rw [run_event_ops]; exact ih _
    | set_watching b => rw [run_event_ops]; exact ih _

/-- Source interface `usbmuxd_header` from `usbmuxd_proto`. -/
structure usbmuxd_header where
  length : Nat
  version : Nat
  message : Nat
  tag : Nat
deriving DecidableEq, Repr

/-- The process-wide state read and written by `usbmuxd_get_device_list`:
`_proto_version`, `_use_tag` and `_devices`. -/
structure MuxState where
  proto_version : Nat
  use_tag : Nat
  devices : List usbmuxd_device_info_t
deriving DecidableEq, Repr

/-- The initial values of the module-level variables:
`_proto_version = 1`, `_use_tag = 0`, `_devices = []`. -/
def init_mux_state : MuxState := { proto_version := 1, use_tag := 0, devices := [] }

/-- The source's `tag = ++_use_tag` statement. -/
def bump_tag (st : MuxState) : MuxState := { st with use_tag := st.use_tag + 1 }

/-- The source's `_proto_version = 0` downgrade statement. -/
def downgrade (st : MuxState) : MuxState := { st with proto_version := 0 }

/-- Daemon response to `connect_usbmuxd_socket`: a connected socket or the
negative errno resolved on connect failure. -/
inductive ConnResp where
  | ok
  | err (e : Int)
deriving DecidableEq, Repr

/-- Daemon response to `socket_list_devices` (union `PlistObject | number` in
the source): a result code, or a parsed response whose `DeviceList` property
is an array of device records (`ok (some records)`) or not an array
(`ok none`). -/
inductive ListDevResp where
  | err (code : Int)
  | ok (device_list : Option (List DeviceProps))
deriving DecidableEq, Repr

/-- Daemon response to `socket_listen` (union `void | number` in the
source). -/
inductive ListenResp where
  | err (code : Int)
  | ok
deriving DecidableEq, Repr

/-- Daemon response to `socket_receive_data` (union
`[usbmuxd_header, ArrayBuffer] | number` in the source): a number (timeout or
error) or one complete frame. -/
inductive RecvResp where
  | num (e : Int)
  | frame (header : usbmuxd_header) (body : List Nat)
deriving DecidableEq, Repr

/-- One oracle entry: the daemon's response to the next transport call made
by `usbmuxd_get_device_list`, tagged by which call it answers. -/
inductive Ev where
  | conn (r : ConnResp)
  | lsdev (r : ListDevResp)
  | listen (r : ListenResp)
  | recv (r : RecvResp)
deriving DecidableEq, Repr

/-- What `usbmuxd_get_device_list` resolves its promise with: an error code
or a device list. -/
inductive LsResult where
  | errcode (e : Int)
  | devlist (l : List usbmuxd_device_info_t)
deriving DecidableEq, Repr

/-- Operation `DataView.getUint32` with the default (big-endian) byte order,
reading four bytes at `off` (out-of-range bytes read as zero). -/
def getUint32 (data : List Nat) (off : Nat) : Nat :=
  data.getD off 0 * 2 ^ 24 + data.getD (off + 1) 0 * 2 ^ 16 +
    data.getD (off + 2) 0 * 2 ^ 8 + data.getD (off + 3) 0

/-- Modelled from the spec: `device_info_from_data` is a stub
(`throw new Error()`) in the source.  The spec describes the legacy
`DEVICE_ADD` payload as a binary `usbmuxd_device_record` (device id, product
id, serial number); the model reads the two ids as 32-bit fields, the serial
as a NUL-terminated byte string after them, and returns `undefined` (`none`)
for a truncated record.  Legacy devices are USB devices with empty auxiliary
bytes. -/
def device_info_from_data (data : List Nat) : Option usbmuxd_device_info_t :=
  if data.length < 8 then
    none
  else
    some {
      handle := Int.ofNat (getUint32 data 0)
      product_id := Int.ofNat (getUint32 data 4)
      udid := String.mk (((data.drop 8).takeWhile (fun b => b ≠ 0)).map Char.ofNat)
      conn_type := usbmux_connection_type.CONNECTION_TYPE_USB
      conn_data := [] }

/-- The device-record loop of the negotiated `ListDevices` path: decodes
every record of `DeviceList`, aborting on the first malformed one (the
source's `resolve(-EPERM)` early return). -/
def decode_device_list : List DeviceProps → Option (List usbmuxd_device_info_t)
  | [] => some []
  | p :: rest =>
    match device_info_from_plist p with
    | none => none
    | some d =>
      match decode_device_list rest with
      | none => none
      | some l => some (d :: l)

/-- Outcome of one call of the inner `recursively_get_device_list` closure:
whether it resolved the surrounding promise (and with what), the local
`device_list` afterwards, and the process-wide state afterwards. -/
structure LegacyStepOut where
  resolved : Option (List usbmuxd_device_info_t)
  device_list : List usbmuxd_device_info_t
  st : MuxState
deriving DecidableEq, Repr

/-- The `device_list.splice(i, 1)` loop of the `MESSAGE_DEVICE_REMOVE`
branch: removes the first entry whose handle matches, then breaks. -/
def remove_device_by_handle (handle : Nat) : List usbmuxd_device_info_t → List usbmuxd_device_info_t
  | [] => []
  | d :: rest =>
    if d.handle = Int.ofNat handle then rest
    else d :: remove_device_by_handle handle rest

/-- Source closure `recursively_get_device_list`: despite its name it
performs a single `socket_receive_data` and, when that yields a frame,
handles the frame and returns without calling itself and without resolving
the surrounding promise (`resolved = none`).  A numeric receive result
resolves the local `device_list` after replacing `_devices` with it; a
`DEVICE_ADD` frame pushes the decoded device onto the global `_devices` (the
`st.devices` field), not onto the local `device_list`; a malformed
`DEVICE_ADD` record is only logged; a `DEVICE_REMOVE` frame splices the
matching entry out of the local `device_list`; other frames are logged. -/
def recursively_get_device_list (r : RecvResp) (device_list : List usbmuxd_device_info_t)
    (st : MuxState) : LegacyStepOut :=
  match r with
  | RecvResp.num _ =>
    { resolved := some device_list, device_list := device_list,
      st := { st with devices := device_list } }
  | RecvResp.frame header body =>
    if header.message = MESSAGE_DEVICE_ADD then
      match device_info_from_data body with
      | some d =>
        { resolved := none, device_list := device_list,
          st := { st with devices := st.devices ++ [d] } }
      | none => { resolved := none, device_list := device_list, st := st }
    else if header.message = MESSAGE_DEVICE_REMOVE then
      { resolved := none, device_list := remove_device_by_handle (getUint32 body 0) device_list,
        st := st }
    else
      { resolved := none, device_list := device_list, st := st }

/-- Source closure `connect_and_list_devices` (the body of
`usbmuxd_get_device_list`).  The daemon's responses are consumed from the
oracle list `env` in call order: `connect_usbmuxd_socket`, then
`socket_list_devices` (negotiated) or `socket_listen` (legacy, after a second
`tag = ++_use_tag`), then a single `socket_receive_data`.  A first result of
`none` means the promise is never resolved; this is also returned when the
oracle does not match the call the source makes next, with the state as of
that call. -/
def connect_and_list_devices : List Ev → MuxState → Option LsResult × MuxState
  | Ev.conn (ConnResp.err e) :: _, st => (some (LsResult.errcode e), st)
  | Ev.conn ConnResp.ok :: Ev.lsdev r :: rest, st =>
    if (bump_tag st).proto_version = 1 then
      match r with
      | ListDevResp.err code =>
        connect_and_list_devices rest
          (if code = RESULT_BADVERSION then downgrade (bump_tag st) else bump_tag st)
      | ListDevResp.ok none => (some (LsResult.devlist []), { bump_tag st with devices := [] })
      | ListDevResp.ok (some plist_devlist) =>
        match decode_device_list plist_devlist with
        | none => (some (LsResult.errcode (-EPERM)), bump_tag st)
        | some device_list =>
          (some (LsResult.devlist device_list), { bump_tag st with devices := device_list })
    else
      (none, bump_tag (bump_tag st))
  | Ev.conn ConnResp.ok :: Ev.listen r :: rest, st =>
    if (bump_tag st).proto_version = 1 then
      (none, bump_tag st)
    else
      match r with
      | ListenResp.err code =>
        if code = RESULT_BADVERSION ∧ (bump_tag (bump_tag st)).proto_version = 1 then
          connect_and_list_devices rest (downgrade (bump_tag (bump_tag st)))
        else
          (some (LsResult.errcode code), bump_tag (bump_tag st))
      | ListenResp.ok =>
        match rest with
        | Ev.recv rr :: _ =>
          ((recursively_get_device_list rr [] (bump_tag (bump_tag st))).resolved.map LsResult.devlist,
           (recursively_get_device_list rr [] (bump_tag (bump_tag st))).st)
        | _ => (none, bump_tag (bump_tag st))
  | _, st => (none, st)

theorem connect_and_list_devices_proto (env : List Ev) (st : MuxState) :
    (connect_and_list_devices env st).2.proto_version = st.proto_version ∨
      (connect_and_list_devices env st).2.proto_version = 0 := by
  induction env, st using connect_and_list_devices.induct with
  | case1 e tail st => exact Or.inl rfl
  | case2 rest st h code ih =>
    have h' : st.proto_version = 1 := h
    by_cases hc : code = RESULT_BADVERSION
    · simp [connect_and_list_devices, bump_tag, downgrade, h', hc] at ih ⊢
      tauto
    · simp [connect_and_list_devices, bump_tag, downgrade, h', hc] at ih ⊢
      tauto
  | case3 rest st h =>
    have h' : st.proto_version = 1 := h
    simp [connect_and_list_devices, bump_tag, h']
  | case4 rest st h plist_devlist hd =>
    have h' : st.proto_version = 1 := h
    simp [connect_and_list_devices, bump_tag, h', hd]
  | case5 rest st h plist_devlist l hd =>
    have h' : st.proto_version = 1 := h
    simp [connect_and_list_devices, bump_tag, h', hd]
  | case6 r rest st h =>
    have h' : ¬st.proto_version = 1 := h
    simp [connect_and_list_devices, bump_tag, h']
  | case7 r rest st h =>
    have h' : st.proto_version = 1 := h
    simp [connect_and_list_devices, bump_tag, h']
  | case8 rest st h1 a h ih => exact absurd h.2 h1
  | case9 rest st h1 a h =>
    have h1' : ¬st.proto_version = 1 := h1
    have h' : ¬(a = RESULT_BADVERSION ∧ st.proto_version = 1) := h
    simp [connect_and_list_devices, bump_tag, h1', h']
  | case10 st h rr tail =>
    have h' : ¬st.proto_version = 1 := h
    cases rr with
    | num e => simp [connect_and_list_devices, bump_tag, h', recursively_get_device_list]
    | frame hd body =>
      by_cases h4 : hd.message = 4
      · cases hdec : device_info_from_data body <;>
          simp [connect_and_list_devices, bump_tag, h', recursively_get_device_list, h4, hdec,
            MESSAGE_DEVICE_ADD, MESSAGE_DEVICE_REMOVE]
      · by_cases h5 : hd.message = 5 <;>
          simp [connect_and_list_devices, bump_tag, h', recursively_get_device_list, h4, h5,
            MESSAGE_DEVICE_ADD, MESSAGE_DEVICE_REMOVE]
  | case11 rest st h1 hx =>
    have h' : ¬st.proto_version = 1 := h1
    cases rest with
    | nil => simp [connect_and_list_devices, bump_tag, h']
    | cons ev t =>
      cases ev with
      | recv rr => exact (hx rr t rfl).elim
      | conn r => simp [connect_and_list_devices, bump_tag, h']
      | lsdev r => simp [connect_and_list_devices, bump_tag, h']
      | listen r => simp [connect_and_list_devices, bump_tag, h']
  | case12 t st x2 x1 x0 =>
    rw [connect_and_list_devices.eq_def]
    split
    · exact (x2 _ _ rfl).elim
    · exact (x1 _ _ rfl).elim
    · exact (x0 _ _ rfl).elim
    · exact Or.inl rfl

theorem device_info_from_plist_isSome (props : DeviceProps) :
    (device_info_from_plist props).isSome = true ↔ spec_record_accepted props := by
  unfold device_info_from_plist spec_record_accepted
  by_cases h1 : isNumber props.DeviceID = true <;>
  by_cases h2 : isNumber props.ProductID = true <;>
  by_cases h3 : isString props.SerialNumber = true <;>
  by_cases h4 : props.ConnectionType = PValue.str "USB" <;>
  by_cases h5 : props.ConnectionType = PValue.str "Network" <;>
  by_cases h6 : isUint8Array props.NetworkAddress = true <;>
  simp_all

theorem device_info_from_plist_some_shape (props : DeviceProps) (d : usbmuxd_device_info_t)
    (hd : device_info_from_plist props = some d) :
    d = { handle := asNumber props.DeviceID
          product_id := asNumber props.ProductID
          udid := asString props.SerialNumber
          conn_type :=
            if props.ConnectionType = PValue.str "Network" then
              usbmux_connection_type.CONNECTION_TYPE_NETWORK
            else
              usbmux_connection_type.CONNECTION_TYPE_USB
          conn_data :=
            if props.ConnectionType = PValue.str "Network" then
              asBytes props.NetworkAddress
            else
              [] } := by
  unfold device_info_from_plist at hd
  by_cases h1 : isNumber props.DeviceID = true <;>
  by_cases h2 : isNumber props.ProductID = true <;>
  by_cases h3 : isString props.SerialNumber = true <;>
  by_cases h4 : props.ConnectionType = PValue.str "USB" <;>
  by_cases h5 : props.ConnectionType = PValue.str "Network" <;>
  by_cases h6 : isUint8Array props.NetworkAddress = true <;>
  simp_all

/-- C6: `device_info_from_plist` returns a device exactly when `DeviceID` and
`ProductID` are numbers, `SerialNumber` is a string, `ConnectionType` is
"USB" or "Network", and, for "Network", `NetworkAddress` is a byte array; on
success the auxiliary bytes are empty for USB and equal to `NetworkAddress`
for Network. -/
theorem C6_device_record_decoding (props : DeviceProps) :
    ((device_info_from_plist props).isSome = true ↔ spec_record_accepted props) ∧
    (∀ d, device_info_from_plist props = some d →
      (props.ConnectionType = PValue.str "USB" →
        d.conn_type = usbmux_connection_type.CONNECTION_TYPE_USB ∧ d.conn_data = []) ∧
      (props.ConnectionType = PValue.str "Network" →
        d.conn_type = usbmux_connection_type.CONNECTION_TYPE_NETWORK ∧
        props.NetworkAddress = PValue.bytes d.conn_data)) := by
  refine ⟨device_info_from_plist_isSome props, ?_⟩
  intro d hd
  have hacc : spec_record_accepted props :=
    (device_info_from_plist_isSome props).mp (by rw [hd]; rfl)
  have hshape := device_info_from_plist_some_shape props d hd
  subst hshape
  constructor
  · intro h4
    have hne : ¬props.ConnectionType = PValue.str "Network" := by
      rw [h4]; simp
    simp [hne]
  · intro h5
    have h6 : isUint8Array props.NetworkAddress = true := hacc.2.2.2.2 h5
    cases hNA : props.NetworkAddress with
    | bytes b => simp [h5, hNA, asBytes]
    | num n => rw [hNA] at h6; cases h6
    | str s => rw [hNA] at h6; cases h6
    | other => rw [hNA] at h6; cases h6

/-- A structured Network device record used to instantiate C6. -/
def net_props : DeviceProps :=
  { DeviceID := PValue.num 3, ProductID := PValue.num 4, SerialNumber := PValue.str "s",
    ConnectionType := PValue.str "Network", NetworkAddress := PValue.bytes [1, 2] }

/-- The device `device_info_from_plist` decodes `net_props` to. -/
def net_device : usbmuxd_device_info_t :=
  { handle := 3, product_id := 4, udid := "s",
    conn_type := usbmux_connection_type.CONNECTION_TYPE_NETWORK, conn_data := [1, 2] }

/-- Witness for C6 at a concrete Network record. -/
theorem C6_device_record_decoding_witness :
    net_device.conn_type = usbmux_connection_type.CONNECTION_TYPE_NETWORK ∧
    net_props.NetworkAddress = PValue.bytes net_device.conn_data :=
  ((C6_device_record_decoding net_props).2 net_device (by decide)).2 rfl

/-- A concrete USB device used in registry scenarios. -/
def d0 : usbmuxd_device_info_t :=
  { handle := 1, product_id := 2, udid := "serial0",
    conn_type := usbmux_connection_type.CONNECTION_TYPE_USB, conn_data := [] }

/-- A registry state with no active listen session, one known device and no
registered listeners. -/
def ev_counter_state : EventState :=
  { watching := false, devices := [d0], listener_map := [], next_handle := 0 }

/-- A registry state with an active listen session and one known device. -/
def ev_watch_state : EventState :=
  { watching := true, devices := [d0], listener_map := [], next_handle := 0 }

/-- A registry state with one registered listener (handle 0) and one known
device, no active listen session. -/
def ev_reg_state : EventState :=
  { watching := false, devices := [d0],
    listener_map := [(0, { callback := 0, user_data := 0 })], next_handle := 1 }

/-- C3 counterexample: with no active listen session and one known device, a
subscribe delivers zero synthetic ADD events while the matching unsubscribe
of the returned handle (0) delivers one synthetic REMOVE event, so the two
counts differ even though the device set is identical at both moments. -/
theorem C3_counterexample :
    ((usbmuxd_events_subscribe 0 0 ev_counter_state).2.1).length ≠
      ((usbmuxd_events_unsubscribe 0
          (usbmuxd_events_subscribe 0 0 ev_counter_state).2.2).2.1).length ∧
    (usbmuxd_events_subscribe 0 0 ev_counter_state).1 = Sum.inl 0 := by decide

/-- C3 (amended): when a live listen session is active at the subscribe call,
the synthetic ADD count equals the number of devices known then; the
synthetic REMOVE count at unsubscribe of a registered handle equals the
number of devices known then; hence the two counts agree whenever the
directory size is unchanged between the calls. -/
theorem C3_replay_symmetry_amended (st1 st2 : EventState) (cb ud c : Nat)
    (hw : st1.watching = true)
    (hreg : (listener_map_get c st2.listener_map).isSome = true)
    (hlen : st1.devices.length = st2.devices.length) :
    ((usbmuxd_events_subscribe cb ud st1).2.1).length = st1.devices.length ∧
    ((usbmuxd_events_unsubscribe c st2).2.1).length = st2.devices.length ∧
    ((usbmuxd_events_subscribe cb ud st1).2.1).length =
      ((usbmuxd_events_unsubscribe c st2).2.1).length := by
  have h1 : ((usbmuxd_events_subscribe cb ud st1).2.1).length = st1.devices.length := by
    simp [usbmuxd_events_subscribe, hw]
  have h2 : ((usbmuxd_events_unsubscribe c st2).2.1).length = st2.devices.length := by
    cases hg : listener_map_get c st2.listener_map with
    | none => simp [hg] at hreg
    | some ctx => simp [usbmuxd_events_unsubscribe, hg]
  exact ⟨h1, h2, by rw [h1, h2, hlen]⟩

/-- Witness for the amended C3: with a listen session active at subscribe and
the same single-device directory at both moments, both counts are 1. -/
theorem C3_replay_symmetry_amended_witness :
    ((usbmuxd_events_subscribe 0 0 ev_watch_state).2.1).length =
      ((usbmuxd_events_unsubscribe 0 ev_reg_state).2.1).length :=
  (C3_replay_symmetry_amended ev_watch_state ev_reg_state 0 0 0 rfl (by decide) rfl).2.2

/-- C7: unsubscribing an unregistered context handle returns the negative
error `-EINVAL` and has no side effects (no events delivered, state
unchanged); unsubscribing a registered handle delivers one synthetic REMOVE
event per currently-known device, erases the registration, returns 0 and
leaves the Device Directory unchanged. -/
theorem C7_unsubscribe_contract (c : Nat) (st : EventState) :
    (listener_map_get c st.listener_map = none →
      usbmuxd_events_unsubscribe c st = (-EINVAL, [], st) ∧ (-EINVAL : Int) < 0) ∧
    (∀ ctx, listener_map_get c st.listener_map = some ctx →
      usbmuxd_events_unsubscribe c st =
        (0, st.devices.map (fun d => (usbmuxd_event_type.UE_DEVICE_REMOVE, d)),
         { st with listener_map := listener_map_delete c st.listener_map }) ∧
      (usbmuxd_events_unsubscribe c st).2.2.devices = st.devices) := by
  constructor
  · intro hg
    refine ⟨?_, by norm_num [EINVAL]⟩
    unfold usbmuxd_events_unsubscribe
    rw [hg]
  · intro ctx hg
    unfold usbmuxd_events_unsubscribe
    rw [hg]
    exact ⟨rfl, rfl⟩

/-- Witness for C7: the unknown-handle branch on a state with no listeners,
and the registered branch on a state with one listener. -/
theorem C7_unsubscribe_contract_witness :
    usbmuxd_events_unsubscribe 0 ev_counter_state = (-EINVAL, [], ev_counter_state) ∧
    usbmuxd_events_unsubscribe 0 ev_reg_state =
      (0, ev_reg_state.devices.map (fun d => (usbmuxd_event_type.UE_DEVICE_REMOVE, d)),
       { ev_reg_state with listener_map := listener_map_delete 0 ev_reg_state.listener_map }) :=
  ⟨((C7_unsubscribe_contract 0 ev_counter_state).1 rfl).1,
   ((C7_unsubscribe_contract 0 ev_reg_state).2 { callback := 0, user_data := 0 } rfl).1⟩

/-- C10: `usbmuxd_events_subscribe` never returns an error: it always returns
a fresh context handle (the handles returned across any sequence of registry
operations, devices/listen-session changes included, are pairwise distinct,
so resubscribing the same callback yields an independent registration), it
always appends the registration, and with no active listen session it
delivers no events to the new callback. -/
theorem C10_subscribe_contract :
    (∀ ops st, ((run_event_ops ops st).2).Pairwise (· ≠ ·)) ∧
    (∀ cb ud st,
      (usbmuxd_events_subscribe cb ud st).1 = Sum.inl st.next_handle ∧
      (usbmuxd_events_subscribe cb ud st).2.2.listener_map =
        st.listener_map ++ [(st.next_handle, { callback := cb, user_data := ud })] ∧
      (st.watching = false → (usbmuxd_events_subscribe cb ud st).2.1 = [])) := by
  constructor
  · intro ops st
    exact (run_event_ops_handles_sorted ops st).imp (fun h => Nat.ne_of_lt h)
  · intro cb ud st
    refine ⟨usbmuxd_events_subscribe_fst cb ud st, ?_, ?_⟩
    · unfold usbmuxd_events_subscribe
      split <;> rfl
    · intro hw
      simp [usbmuxd_events_subscribe, hw]

/-- Witness for C10: two subscriptions of the same callback yield distinct
handles, and a subscribe with no active listen session delivers no events. -/
theorem C10_subscribe_contract_witness :
    ((run_event_ops [EventOp.subscribe 0 0, EventOp.subscribe 0 0] ev_counter_state).2).Pairwise
      (· ≠ ·) ∧
    (usbmuxd_events_subscribe 0 0 ev_counter_state).2.1 = [] :=
  ⟨C10_subscribe_contract.1 [EventOp.subscribe 0 0, EventOp.subscribe 0 0] ev_counter_state,
   (C10_subscribe_contract.2 0 0 ev_counter_state).2.2 rfl⟩

set_option maxHeartbeats 1600000 in
/-- C8: for every outbound request, `socket_send_data` emits a frame that
begins with a 16-byte header of four big-endian unsigned 32-bit fields in the
order length, version, message type, tag, with the length field equal to
`16 + payload length` and the version field equal to the protocol version
state it was given; the payload bytes follow the header unchanged. -/
theorem C8_frame_layout (proto_version message tag : Nat) (data : List Nat) :
    socket_send_data_frame proto_version message tag data =
      u32be (16 + data.length) ++ u32be proto_version ++ u32be message ++ u32be tag ++ data ∧
    (socket_send_data_frame proto_version message tag data).take 16 =
      u32be (16 + data.length) ++ u32be proto_version ++ u32be message ++ u32be tag ∧
    (socket_send_data_frame proto_version message tag data).drop 16 = data ∧
    (socket_send_data_frame proto_version message tag data).length = 16 + data.length := by
  refine ⟨by rfl, by rfl, by rfl, ?_⟩
  show (u32be (16 + data.length) ++ u32be proto_version ++ u32be message ++ u32be tag ++
      data).length = 16 + data.length
  simp [u32be]
  omega

/-- C9: every negotiated-version request is sent with message type PLIST and
a structured payload containing the keys `ClientVersionString` (the fixed
library identifier "libusbmuxd"), `MessageType` (the operation name), and
`kLibUSBMuxVersion` with value 3; `ListDevices` and `Listen` are instances. -/
theorem C9_negotiated_request_shape (tag : Nat) (message_type : String) :
    (socket_send_plist_request tag (create_plist_message message_type)).message =
      MESSAGE_PLIST ∧
    List.lookup "ClientVersionString"
        (socket_send_plist_request tag (create_plist_message message_type)).payload =
      some "libusbmuxd" ∧
    List.lookup "MessageType"
        (socket_send_plist_request tag (create_plist_message message_type)).payload =
      some message_type ∧
    List.lookup "kLibUSBMuxVersion"
        (socket_send_plist_request tag (create_plist_message message_type)).payload =
      some "3" ∧
    socket_list_devices_request tag =
      socket_send_plist_request tag (create_plist_message "ListDevices") ∧
    socket_listen_request_negotiated tag =
      socket_send_plist_request tag (create_plist_message "Listen") := by
  refine ⟨rfl, ?_, ?_, ?_, rfl, rfl⟩ <;> rfl

/-- C4: the process-wide protocol version state starts at the negotiated
version (1), and across any run of `usbmuxd_get_device_list` (the only code
that writes it) it is either left unchanged or set to the legacy version (0):
the downgrade is one-directional and sticky. -/
theorem C4_version_downgrade_one_directional :
    init_mux_state.proto_version = 1 ∧
    ∀ env st,
      ((connect_and_list_devices env st).2.proto_version = st.proto_version ∨
        (connect_and_list_devices env st).2.proto_version = 0) ∧
      (connect_and_list_devices env st).2.proto_version ≤ st.proto_version := by
  refine ⟨rfl, fun env st => ⟨connect_and_list_devices_proto env st, ?_⟩⟩
  rcases connect_and_list_devices_proto env st with h | h <;> omega

/-- C1: the claim's second half fails on the code. A negotiated `ListDevices`
exchange answered with the non-BADVERSION result code `RESULT_BADCOMMAND` is
not surfaced to the caller: the session is destroyed and the whole operation
is retried (the second conjunct shows that after that error alone nothing is
resolved, and the first shows a second exchange is then consumed and its
result returned, with the version still at 1 and the tag counter showing two
attempts). -/
theorem C1_non_badversion_error_is_retried :
    connect_and_list_devices
        [Ev.conn ConnResp.ok, Ev.lsdev (ListDevResp.err RESULT_BADCOMMAND),
         Ev.conn ConnResp.ok, Ev.lsdev (ListDevResp.ok (some []))] init_mux_state =
      (some (LsResult.devlist []), { proto_version := 1, use_tag := 2, devices := [] }) ∧
    (connect_and_list_devices
        [Ev.conn ConnResp.ok, Ev.lsdev (ListDevResp.err RESULT_BADCOMMAND)]
        init_mux_state).1 = none := by decide

/-- The legacy binary payload of a well-formed `DEVICE_ADD` frame: device id
7, product id 9, serial "AB". -/
def legacy_add_body : List Nat := [0, 0, 0, 7, 0, 0, 0, 9, 65, 66, 0, 0]

/-- The device `device_info_from_data` decodes `legacy_add_body` to. -/
def legacy_device : usbmuxd_device_info_t :=
  { handle := 7, product_id := 9, udid := "AB",
    conn_type := usbmux_connection_type.CONNECTION_TYPE_USB, conn_data := [] }

/-- C2: the claim fails on the code. In a legacy-version listing (entered
after a BADVERSION downgrade) where the daemon delivers one well-formed
`DEVICE_ADD` frame, the call never resolves (first component `none`): the
inner closure handles a single frame and returns without recursing, and the
decoded device is pushed onto the global `_devices` (final state) instead of
the local result list.  The second conjunct checks the frame body itself
decodes to the expected device. -/
theorem C2_legacy_listing_never_resolves :
    connect_and_list_devices
        [Ev.conn ConnResp.ok, Ev.lsdev (ListDevResp.err RESULT_BADVERSION),
         Ev.conn ConnResp.ok, Ev.listen ListenResp.ok,
         Ev.recv (RecvResp.frame { length := 28, version := 0, message := 4, tag := 3 }
           legacy_add_body)]
        init_mux_state =
      (none, { proto_version := 0, use_tag := 3, devices := [legacy_device] }) ∧
    device_info_from_data legacy_add_body = some legacy_device := by decide

/-- A truncated legacy device record (fewer than the 8 bytes of the two id
fields), rejected by `device_info_from_data`. -/
def malformed_add_body : List Nat := [0, 0, 0]

/-- C5 counterexample: in a legacy-version listing, a malformed `DEVICE_ADD`
record does not abort the call with a decode error: the run resolves nothing
at all (first component `none`, not an error code), the bad record being
logged and skipped. -/
theorem C5_counterexample_legacy_no_abort :
    (connect_and_list_devices
        [Ev.conn ConnResp.ok, Ev.lsdev (ListDevResp.err RESULT_BADVERSION),
         Ev.conn ConnResp.ok, Ev.listen ListenResp.ok,
         Ev.recv (RecvResp.frame { length := 19, version := 0, message := 4, tag := 3 }
           malformed_add_body)]
        init_mux_state).1 = none ∧
    device_info_from_data malformed_add_body = none := by decide

theorem decode_device_list_malformed (props : List DeviceProps)
    (h : ∃ p ∈ props, device_info_from_plist p = none) :
    decode_device_list props = none := by
  induction props with
  | nil => rcases h with ⟨p, hp, _⟩; cases hp
  | cons q rest ih =>
    rcases h with ⟨p, hp, hnone⟩
    rcases List.mem_cons.mp hp with rfl | hp
    · simp [decode_device_list, hnone]
    · cases hq : device_info_from_plist q <;>
        simp [decode_device_list, hq, ih ⟨p, hp, hnone⟩]

/-- C5 (amended): on the negotiated path a malformed device record aborts the
whole call with the decode error `-EPERM`, leaving the Device Directory
untouched; on the legacy path a malformed `DEVICE_ADD` record does not abort
the call: it is logged and skipped, leaving the result list, the directory
and the resolution state unchanged. -/
theorem C5_malformed_records_amended :
    (∀ (st : MuxState) (plist_devlist : List DeviceProps) (rest : List Ev),
      st.proto_version = 1 →
      (∃ p ∈ plist_devlist, device_info_from_plist p = none) →
      connect_and_list_devices
          (Ev.conn ConnResp.ok :: Ev.lsdev (ListDevResp.ok (some plist_devlist)) :: rest) st =
        (some (LsResult.errcode (-EPERM)), bump_tag st)) ∧
    (∀ (device_list : List usbmuxd_device_info_t) (st : MuxState)
        (header : usbmuxd_header) (body : List Nat),
      header.message = MESSAGE_DEVICE_ADD →
      device_info_from_data body = none →
      recursively_get_device_list (RecvResp.frame header body) device_list st =
        { resolved := none, device_list := device_list, st := st }) := by
  constructor
  · intro st plist_devlist rest hv hmal
    have hb : (bump_tag st).proto_version = 1 := hv
    have hd : decode_device_list plist_devlist = none := decode_device_list_malformed _ hmal
    simp only [connect_and_list_devices]
    rw [if_pos hb, hd]
  · intro device_list st header body hmsg hdec
    simp [recursively_get_device_list, hmsg, hdec]

/-- A device record with every field ill-typed, rejected by
`device_info_from_plist`. -/
def bad_props : DeviceProps :=
  { DeviceID := PValue.other, ProductID := PValue.other, SerialNumber := PValue.other,
    ConnectionType := PValue.other, NetworkAddress := PValue.other }

/-- Witness for the amended C5: a negotiated listing whose response holds one
malformed record resolves `-EPERM` without touching the state beyond the tag,
and a legacy malformed `DEVICE_ADD` is skipped without any state change. -/
theorem C5_malformed_records_amended_witness :
    connect_and_list_devices
        [Ev.conn ConnResp.ok, Ev.lsdev (ListDevResp.ok (some [bad_props]))] init_mux_state =
      (some (LsResult.errcode (-EPERM)), bump_tag init_mux_state) ∧
    recursively_get_device_list
        (RecvResp.frame { length := 19, version := 0, message := 4, tag := 1 }
          malformed_add_body) [] init_mux_state =
      { resolved := none, device_list := [], st := init_mux_state } :=
  ⟨C5_malformed_records_amended.1 init_mux_state [bad_props] [] rfl
      ⟨bad_props, by decide, by decide⟩,
   C5_malformed_records_amended.2 [] init_mux_state
      { length := 19, version := 0, message := 4, tag := 1 } malformed_add_body rfl (by decide)⟩

end NodeUsbmuxd
